import Mathlib

/-!
Verification of the role-to-group sync core of the status-discord-bot
repository (src/auto_sync_outline.py, src/bot.py), as a shallow embedding.

Python strings become Lean `String` (lowercasing is char-wise, as in the
source's `.lower()`); Python truthiness of a string is the test `≠ ""`;
Python dicts keyed by strings become association lists with
last-write-wins lookup; fallible API calls become `Option`-valued
snapshots passed in explicitly; the mutating HTTP calls the code issues
are reified as a `MutCall` trace so that dry-run claims are statable.
-/

namespace StatusBot

/-- Prefix test on character lists (the building block of Python's
substring operator `in`). -/
def charsHasPre : List Char → List Char → Bool
  | [], _ => true
  | _ :: _, [] => false
  | a :: as, b :: bs => a == b && charsHasPre as bs

/-- Contiguous-substring test on character lists. -/
def charsHasSub (needle : List Char) : List Char → Bool
  | [] => needle.isEmpty
  | h :: t => charsHasPre needle (h :: t) || charsHasSub needle t

/-- Python's `needle in hay` on strings: contiguous substring containment
(the empty string is contained in everything). -/
def pyIn (needle hay : String) : Bool :=
  charsHasSub needle.data hay.data

/-- Python's `str.lower()`, char-wise (ASCII range, which is what the
identifiers at issue use). Defined over the character list so that
concrete instances reduce inside the kernel. -/
def pyLower (s : String) : String :=
  ⟨s.data.map Char.toLower⟩

/-- Worker for `pySplit`: walk the characters, accumulating the current
fragment reversed; whitespace closes a fragment, empty fragments are
dropped. -/
def pySplitAux : List Char → List Char → List String
  | [], cur => if cur.isEmpty then [] else [⟨cur.reverse⟩]
  | c :: rest, cur =>
    if c.isWhitespace then
      if cur.isEmpty then pySplitAux rest []
      else (⟨cur.reverse⟩ : String) :: pySplitAux rest []
    else pySplitAux rest (c :: cur)

/-- Python's `str.split()` with no argument: split on runs of whitespace,
dropping empty fragments. -/
def pySplit (s : String) : List String :=
  pySplitAux s.data []

/-- Python's `str.replace(' ', '')`: drop every space character. -/
def removeSpaces (s : String) : String :=
  ⟨s.data.filter (fun c => c ≠ ' ')⟩

/-- `email.split('@')[0]`: the local part of an email address (the whole
string when no `@` occurs, as in Python). -/
def emailLocalPart (s : String) : String :=
  ⟨s.data.takeWhile (fun c => c ≠ '@')⟩

/-- A directory ("Outline") user record as the sync code reads it:
`id`, `name` (free text, possibly empty ~ Python falsy/missing),
`email` (empty ~ missing), and the group ids of its `memberships`
(absent key behaves like the empty list in the source's dry-run check). -/
structure OutlineUser where
  id : String
  name : String
  email : String
  memberships : List String
deriving Repr, DecidableEq

/-- A chat-platform ("Discord") member holding the role: the handle
(`member.name`) and the display name (`member.display_name`). -/
structure DiscordMember where
  name : String
  display_name : String
deriving Repr, DecidableEq

/-- Which strategy of the matching cascade produced the match. -/
inductive Strategy
  | displayExact
  | displayPartial
  | emailDisplay
  | handleExact
  | handlePartial
  | emailHandle
deriving Repr, DecidableEq

/-- Strategy 1 of `find_matching_outline_user`: direct (case-insensitive)
display-name match, guarded by truthiness of the display name and of the
candidate's name; first candidate in list order wins. -/
def strat1 (display : String) (users : List OutlineUser) : Option OutlineUser :=
  if display = "" then none else
  users.find? fun u => (u.name != "") && (pyLower u.name == pyLower display)

/-- The token-pair test of strategy 2: some pair of whitespace-separated
parts (each longer than 2 characters) where one part is a substring of
the other. -/
def tokenPairMatch (displayParts nameParts : List String) : Bool :=
  displayParts.any fun dp => nameParts.any fun np =>
    decide (dp.length > 2) && decide (np.length > 2) && (pyIn dp np || pyIn np dp)

/-- Strategy 2: partial display-name match on split name parts. -/
def strat2 (display : String) (users : List OutlineUser) : Option OutlineUser :=
  if display = "" then none else
  users.find? fun u =>
    (u.name != "") && tokenPairMatch (pySplit (pyLower display)) (pySplit (pyLower u.name))

/-- Strategy 3: display name (lowercased, spaces stripped) against the
email local part, substring in either direction. -/
def strat3 (display : String) (users : List OutlineUser) : Option OutlineUser :=
  if display = "" then none else
  users.find? fun u =>
    (u.email != "") &&
      (pyIn (removeSpaces (pyLower display)) (pyLower (emailLocalPart u.email)) ||
       pyIn (pyLower (emailLocalPart u.email)) (removeSpaces (pyLower display)))

/-- Strategy 4: direct (case-insensitive) username/handle match. -/
def strat4 (handle : String) (users : List OutlineUser) : Option OutlineUser :=
  users.find? fun u => (u.name != "") && (pyLower u.name == pyLower handle)

/-- Strategy 5: partial handle match (substring either way, both sides
longer than 2 characters). -/
def strat5 (handle : String) (users : List OutlineUser) : Option OutlineUser :=
  users.find? fun u =>
    (u.name != "") &&
    decide ((pyLower handle).length > 2) && decide ((pyLower u.name).length > 2) &&
    (pyIn (pyLower handle) (pyLower u.name) || pyIn (pyLower u.name) (pyLower handle))

/-- Strategy 6: email local part equals the lowercased handle. -/
def strat6 (handle : String) (users : List OutlineUser) : Option OutlineUser :=
  users.find? fun u =>
    (u.email != "") && (pyLower (emailLocalPart u.email) == pyLower handle)

/-- The matching cascade `find_matching_outline_user` of
src/auto_sync_outline.py: strategies tried in order, first success wins;
the tag records which strategy fired (the source returns a reason string
built from the same case distinction). -/
def find_matching_outline_user (handle display : String) (users : List OutlineUser) :
    Option (OutlineUser × Strategy) :=
  match strat1 display users with
  | some u => some (u, Strategy.displayExact)
  | none =>
  match strat2 display users with
  | some u => some (u, Strategy.displayPartial)
  | none =>
  match strat3 display users with
  | some u => some (u, Strategy.emailDisplay)
  | none =>
  match strat4 handle users with
  | some u => some (u, Strategy.handleExact)
  | none =>
  match strat5 handle users with
  | some u => some (u, Strategy.handlePartial)
  | none =>
  match strat6 handle users with
  | some u => some (u, Strategy.emailHandle)
  | none => none

/-- Abstraction of the value returned by `outline_api.add_user_to_group`
as the sync code observes it: `text` holds `str(add_response)` (the whole
stringified payload), `isDict` whether the payload is a dict, `successFalse`
whether `get('success') == False`, `hasError` whether an `error` key is
present, and `errorMessage` the value of `get('error',{}).get('message','')`.
A falsy payload (None, `{}`, ...) is modelled as `Option.none` at the call
site. -/
structure AddResponse where
  text : String
  isDict : Bool
  successFalse : Bool
  hasError : Bool
  errorMessage : String
deriving Repr, DecidableEq

/-- The `existing_keywords` list of src/auto_sync_outline.py. -/
def existing_keywords : List String :=
  ["already", "exist", "duplicate", "member", "conflict", "present"]

/-- The `is_existing` classification of a truthy add-to-group response:
a keyword occurs in the lowercased stringified response, or the payload
is a dict with `success == False` or an `error` key and a keyword occurs
in the lowercased error message. -/
def is_existing_response (r : AddResponse) : Bool :=
  let base := existing_keywords.any fun k => pyIn k (pyLower r.text)
  if r.isDict && (r.successFalse || r.hasError) then
    base || existing_keywords.any fun k => pyIn k (pyLower r.errorMessage)
  else base

/-- The three outcome buckets of one reconciliation pass. -/
inductive Bucket
  | synced
  | existing
  | failed
deriving Repr, DecidableEq

/-- Which bucket the member loop of `sync_role_to_outline_group` puts one
role-holder into. `addResp` is the upstream snapshot of add-to-group
responses, keyed by (userId, groupId); `none` models a falsy response.
Dry run inspects the matched candidate's memberships; live run issues the
add call and inspects the response. -/
def classifyMember (dryRun : Bool) (users : List OutlineUser) (groupId : String)
    (addResp : String → String → Option AddResponse) (m : DiscordMember) : Bucket :=
  match find_matching_outline_user m.name m.display_name users with
  | none => Bucket.failed
  | some (u, _) =>
    if dryRun then
      if u.memberships.contains groupId then Bucket.existing else Bucket.synced
    else
      match addResp u.id groupId with
      | none => Bucket.failed
      | some r => if is_existing_response r then Bucket.existing else Bucket.synced

/-- A mutating gateway call issued by the sync. -/
inductive MutCall
  | createGroup (name description : String)
  | addUserToGroup (userId groupId : String)
deriving Repr, DecidableEq

/-- The mutating calls the member loop issues for one role-holder:
none in dry run; one add-to-group call when a match is found in live run
(issued before the response is inspected). -/
def memberCalls (dryRun : Bool) (users : List OutlineUser) (groupId : String)
    (m : DiscordMember) : List MutCall :=
  if dryRun then []
  else
    match find_matching_outline_user m.name m.display_name users with
    | none => []
    | some (u, _) => [MutCall.addUserToGroup u.id groupId]

/-- The per-mapping `SyncOutcome`: the three member buckets built by the
loop of `sync_role_to_outline_group` (the source stores formatted strings;
we keep the members themselves, appended in loop order). -/
structure SyncOutcome where
  synced : List DiscordMember
  existing : List DiscordMember
  failed : List DiscordMember
deriving Repr, DecidableEq

/-- One iteration of the member loop of `sync_role_to_outline_group`:
issue the member's mutating calls (live mode, matched only), then append
the member to the bucket its classification selects. -/
def syncStep (dryRun : Bool) (users : List OutlineUser) (groupId : String)
    (addResp : String → String → Option AddResponse)
    (acc : SyncOutcome × List MutCall) (m : DiscordMember) :
    SyncOutcome × List MutCall :=
  let calls := acc.2 ++ memberCalls dryRun users groupId m
  match classifyMember dryRun users groupId addResp m with
  | Bucket.synced => ({ acc.1 with synced := acc.1.synced ++ [m] }, calls)
  | Bucket.existing => ({ acc.1 with existing := acc.1.existing ++ [m] }, calls)
  | Bucket.failed => ({ acc.1 with failed := acc.1.failed ++ [m] }, calls)

/-- The member loop of `sync_role_to_outline_group`: every role-holder is
matched, classified into one bucket, and (live mode, matched only) an
add-to-group call is issued; the call trace is accumulated alongside. -/
def syncRolePass (dryRun : Bool) (members : List DiscordMember)
    (users : List OutlineUser) (groupId : String)
    (addResp : String → String → Option AddResponse) :
    SyncOutcome × List MutCall :=
  members.foldl (syncStep dryRun users groupId addResp) (⟨[], [], []⟩, [])

/-- A directory group as the sync code reads it. -/
structure OutlineGroup where
  id : String
  name : String
deriving Repr, DecidableEq

/-- The `outline_groups` dict of `auto_sync_outline_command`:
`{group['name']: group for group in groups_list}` — exact-name keys, a
later duplicate name overwrites an earlier one, and membership tests are
exact string comparison. -/
def dictLookupGroup (groups : List OutlineGroup) (name : String) : Option OutlineGroup :=
  groups.reverse.find? fun g => g.name == name

/-- The `outline_group_map` dict of src/bot.py:
`{group.get('name','').lower(): group ...}` read with
`get(group_name.lower())` — a case-insensitive lookup. -/
def botGroupLookup (groups : List OutlineGroup) (name : String) : Option OutlineGroup :=
  groups.reverse.find? fun g => pyLower g.name == pyLower name

/-- Shape of a `create_group` response as `auto_sync_outline_command`
discriminates it: falsy or missing `data` key; `data` present but not a
dict; or a dict payload carrying the created group. -/
inductive CreateResponse
  | failed
  | invalidData
  | ok (group : OutlineGroup)
deriving Repr, DecidableEq

/-- Result of the group-resolution step of one mapping: either a group id
to sync into, or a reported error that skips the mapping; both carry the
mutating calls issued by the step. -/
inductive ResolveResult
  | ok (groupId : String) (calls : List MutCall)
  | err (calls : List MutCall)
deriving Repr, DecidableEq

/-- The mutating calls a group-resolution step issued. -/
def ResolveResult.calls : ResolveResult → List MutCall
  | ResolveResult.ok _ c => c
  | ResolveResult.err c => c

/-- The group-resolution step of `auto_sync_outline_command` for one
mapping: exact-name lookup in the groups dict; if absent, dry run installs
the placeholder `mock-id-for-dry-run`, live run issues `create_group`
with description `"Auto-synced from Discord role: {roleName}"` and fails
the mapping when the response is falsy/invalid. -/
def resolveGroup (groups : List OutlineGroup) (groupName roleName : String)
    (dryRun : Bool) (createResp : CreateResponse) : ResolveResult :=
  match dictLookupGroup groups groupName with
  | some g => ResolveResult.ok g.id []
  | none =>
    if dryRun then ResolveResult.ok "mock-id-for-dry-run" []
    else
      let call := MutCall.createGroup groupName
        ("Auto-synced from Discord role: " ++ roleName)
      match createResp with
      | CreateResponse.ok g => ResolveResult.ok g.id [call]
      | CreateResponse.failed => ResolveResult.err [call]
      | CreateResponse.invalidData => ResolveResult.err [call]

/-- One mapping's full processing in `auto_sync_outline_command`: resolve
or create the group; on error report the mapping (no member sync, outcome
`none`), otherwise run the member loop; the call trace concatenates both
steps. -/
def processMapping (groups : List OutlineGroup) (roleName groupName : String)
    (dryRun : Bool) (createResp : CreateResponse)
    (members : List DiscordMember) (users : List OutlineUser)
    (addResp : String → String → Option AddResponse) :
    Option SyncOutcome × List MutCall :=
  match resolveGroup groups groupName roleName dryRun createResp with
  | ResolveResult.err calls => (none, calls)
  | ResolveResult.ok gid calls =>
    let r := syncRolePass dryRun members users gid addResp
    (some r.1, calls ++ r.2)

/-- Dict lookup in one category's `mappings` table (later duplicate keys
overwrite earlier ones, as in a Python dict built in insertion order). -/
def dictLookupStr (table : List (String × String)) (key : String) : Option String :=
  (table.reverse.find? fun kv => kv.1 == key).map fun kv => kv.2

/-- The flattening loop of `auto_sync_outline_command`:
`all_mappings = {}` then `all_mappings.update(category.mappings)` per
category in iteration order. A role's group is the last value written
for that key across all categories. -/
def allMappingsLookup (roleMappings : List (String × List (String × String)))
    (roleName : String) : Option String :=
  dictLookupStr (roleMappings.foldl (fun acc cat => acc ++ cat.2) []) roleName

/-- State of the backing `role_mapping.json` file as `load_role_mappings`
can encounter it: missing (open raises FileNotFoundError), malformed
(json.load raises JSONDecodeError), or valid with parsed content. -/
inductive FileState
  | missing
  | malformed (raw : String)
  | valid (content : List (String × List (String × String)))
deriving Repr, DecidableEq

/-- `load_role_mappings` of src/auto_sync_outline.py: returns the parsed
mapping plus the list of error reports it logs. Both exception paths are
caught inside the function — its type returns a value for every file
state rather than propagating an exception — yielding the empty mapping
`{}` and one logged report. -/
def load_role_mappings (fs : FileState) :
    List (String × List (String × String)) × List String :=
  match fs with
  | FileState.missing => ([], ["role_mapping.json file not found"])
  | FileState.malformed _ => ([], ["Invalid JSON in role_mapping.json"])
  | FileState.valid content => (content, [])

/-! ### General helper lemmas -/

/-- `List.find?` returns the first element satisfying the predicate:
whenever some element satisfies it, the result is the element at an index
`k` such that every earlier index fails the predicate. -/
theorem find?_eq_some_first {α : Type} (p : α → Bool) (l : List α)
    (hx : ∃ x ∈ l, p x) :
    ∃ k, ∃ hk : k < l.length, l.find? p = some (l.get ⟨k, hk⟩) ∧
      p (l.get ⟨k, hk⟩) = true ∧
      ∀ j, ∀ hj : j < l.length, j < k → p (l.get ⟨j, hj⟩) = false := by
  induction l with
  | nil => rcases hx with ⟨x, hx, _⟩; exact absurd hx (List.not_mem_nil x)
  | cons a t ih =>
    by_cases hpa : p a = true
    · refine ⟨0, by simp, ?_, hpa, ?_⟩
      · simp [List.find?_cons_of_pos _ hpa]
      · intro j hj hj0; omega
    · have hxt : ∃ x ∈ t, p x := by
        rcases hx with ⟨x, hmem, hpx⟩
        rcases List.mem_cons.mp hmem with rfl | hmem
        · exact absurd hpx hpa
        · exact ⟨x, hmem, hpx⟩
      rcases ih hxt with ⟨k, hk, hfind, hpk, hfirst⟩
      refine ⟨k + 1, by simpa using Nat.succ_lt_succ hk, ?_, ?_, ?_⟩
      · rw [List.find?_cons_of_neg _ (by simpa using hpa)]
        simpa using hfind
      · simpa using hpk
      · intro j hj hjk
        match j with
        | 0 => simpa using eq_false_of_ne_true hpa
        | j' + 1 =>
          have hj' : j' < t.length := by simpa using hj
          simpa using hfirst j' hj' (by omega)

/-- A string whose lowercasing is empty is empty. -/
theorem eq_empty_of_pyLower_eq_empty {s : String} (h : pyLower s = "") :
    s = "" := by
  have hd : (pyLower s).data = ([] : List Char) := by rw [h]
  rw [pyLower] at hd
  simp only at hd
  have hnil : s.data = [] := List.map_eq_nil_iff.mp hd
  cases s with
  | mk d =>
    simp only at hnil
    rw [hnil]

/-- If some element of a list satisfies a Boolean predicate, `find?`
succeeds on an element of the list satisfying it. -/
theorem find?_mem_and_holds {α : Type} {p : α → Bool} {l : List α} {x : α}
    (h : l.find? p = some x) : x ∈ l ∧ p x = true :=
  ⟨List.mem_of_find?_eq_some h, List.find?_some h⟩

/-! ### Characterization of the member loop -/

/-- Unfolding of the member-loop fold from an arbitrary accumulator:
each bucket collects (in order) the members the classification sends to
it, and the call trace collects each member's calls in order. -/
theorem syncRolePass_go (dryRun : Bool) (users : List OutlineUser)
    (groupId : String) (addResp : String → String → Option AddResponse)
    (members : List DiscordMember) :
    ∀ acc : SyncOutcome × List MutCall,
      members.foldl (syncStep dryRun users groupId addResp) acc =
        (⟨acc.1.synced ++ members.filter
            (fun m => classifyMember dryRun users groupId addResp m == Bucket.synced),
          acc.1.existing ++ members.filter
            (fun m => classifyMember dryRun users groupId addResp m == Bucket.existing),
          acc.1.failed ++ members.filter
            (fun m => classifyMember dryRun users groupId addResp m == Bucket.failed)⟩,
         acc.2 ++ (members.map (memberCalls dryRun users groupId)).flatten) := by
  induction members with
  | nil => intro acc; simp
  | cons m t ih =>
    intro acc
    rw [List.foldl_cons, ih]
    rcases hc : classifyMember dryRun users groupId addResp m with _ | _ | _ <;>
      simp [syncStep, hc, List.filter_cons]

/-- The member loop, closed form: buckets are the classification filters
of the role-holder list, the trace is the concatenation of per-member
calls. -/
theorem syncRolePass_eq (dryRun : Bool) (members : List DiscordMember)
    (users : List OutlineUser) (groupId : String)
    (addResp : String → String → Option AddResponse) :
    syncRolePass dryRun members users groupId addResp =
      (⟨members.filter
          (fun m => classifyMember dryRun users groupId addResp m == Bucket.synced),
        members.filter
          (fun m => classifyMember dryRun users groupId addResp m == Bucket.existing),
        members.filter
          (fun m => classifyMember dryRun users groupId addResp m == Bucket.failed)⟩,
       (members.map (memberCalls dryRun users groupId)).flatten) := by
  rw [syncRolePass, syncRolePass_go]
  simp

/-- Splitting a list by a three-valued classification: the three filter
lengths sum to the list length. -/
theorem filter_three_length {α : Type} (f : α → Bucket) (l : List α) :
    (l.filter fun x => f x == Bucket.synced).length +
      (l.filter fun x => f x == Bucket.existing).length +
      (l.filter fun x => f x == Bucket.failed).length = l.length := by
  induction l with
  | nil => simp
  | cons a t ih =>
    rcases h : f a with _ | _ | _ <;>
      simp [List.filter_cons, h] <;> omega

/-! ### Membership of matching results -/

/-- A user returned by strategy 1 comes from the candidate list. -/
theorem strat1_mem {display : String} {users : List OutlineUser} {u : OutlineUser}
    (h : strat1 display users = some u) : u ∈ users := by
  rw [strat1] at h
  split at h
  · exact absurd h (by simp)
  · exact List.mem_of_find?_eq_some h

/-- A user returned by strategy 2 comes from the candidate list. -/
theorem strat2_mem {display : String} {users : List OutlineUser} {u : OutlineUser}
    (h : strat2 display users = some u) : u ∈ users := by
  rw [strat2] at h
  split at h
  · exact absurd h (by simp)
  · exact List.mem_of_find?_eq_some h

/-- A user returned by strategy 3 comes from the candidate list. -/
theorem strat3_mem {display : String} {users : List OutlineUser} {u : OutlineUser}
    (h : strat3 display users = some u) : u ∈ users := by
  rw [strat3] at h
  split at h
  · exact absurd h (by simp)
  · exact List.mem_of_find?_eq_some h

/-- A user returned by strategy 4 comes from the candidate list. -/
theorem strat4_mem {handle : String} {users : List OutlineUser} {u : OutlineUser}
    (h : strat4 handle users = some u) : u ∈ users :=
  List.mem_of_find?_eq_some h

/-- A user returned by strategy 5 comes from the candidate list. -/
theorem strat5_mem {handle : String} {users : List OutlineUser} {u : OutlineUser}
    (h : strat5 handle users = some u) : u ∈ users :=
  List.mem_of_find?_eq_some h

/-- A user returned by strategy 6 comes from the candidate list. -/
theorem strat6_mem {handle : String} {users : List OutlineUser} {u : OutlineUser}
    (h : strat6 handle users = some u) : u ∈ users :=
  List.mem_of_find?_eq_some h

/-- A matched user always comes from the candidate list. -/
theorem find_matching_mem {handle display : String} {users : List OutlineUser}
    {u : OutlineUser} {s : Strategy}
    (h : find_matching_outline_user handle display users = some (u, s)) :
    u ∈ users := by
  rw [find_matching_outline_user] at h
  rcases h1 : strat1 display users with _ | u1 <;> rw [h1] at h
  case some => simp at h; exact h.1 ▸ strat1_mem h1
  rcases h2 : strat2 display users with _ | u2 <;> rw [h2] at h
  case some => simp at h; exact h.1 ▸ strat2_mem h2
  rcases h3 : strat3 display users with _ | u3 <;> rw [h3] at h
  case some => simp at h; exact h.1 ▸ strat3_mem h3
  rcases h4 : strat4 handle users with _ | u4 <;> rw [h4] at h
  case some => simp at h; exact h.1 ▸ strat4_mem h4
  rcases h5 : strat5 handle users with _ | u5 <;> rw [h5] at h
  case some => simp at h; exact h.1 ▸ strat5_mem h5
  rcases h6 : strat6 handle users with _ | u6 <;> rw [h6] at h
  case some => simp at h; exact h.1 ▸ strat6_mem h6
  simp at h

/-! ### Response classification, dict lookup and flattening -/

/-- Logical characterization of the `is_existing` response test. -/
theorem is_existing_iff (r : AddResponse) :
    is_existing_response r = true ↔
      ((∃ k ∈ existing_keywords, pyIn k (pyLower r.text) = true) ∨
        (r.isDict = true ∧ (r.successFalse = true ∨ r.hasError = true) ∧
          ∃ k ∈ existing_keywords, pyIn k (pyLower r.errorMessage) = true)) := by
  simp only [is_existing_response]
  cases hflag : (r.isDict && (r.successFalse || r.hasError)) with
  | true =>
    have hconj : r.isDict = true ∧ (r.successFalse = true ∨ r.hasError = true) := by
      simpa [Bool.and_eq_true, Bool.or_eq_true] using hflag
    rw [if_pos rfl]
    simp only [Bool.or_eq_true, List.any_eq_true]
    constructor
    · rintro (hk | hk)
      · exact Or.inl hk
      · exact Or.inr ⟨hconj.1, hconj.2, hk⟩
    · rintro (hk | ⟨_, _, hk⟩)
      · exact Or.inl hk
      · exact Or.inr hk
  | false =>
    have hnc : ¬(r.isDict = true ∧ (r.successFalse = true ∨ r.hasError = true)) := by
      intro hc
      rw [hc.1] at hflag
      rcases hc.2 with h | h <;> rw [h] at hflag <;> simp at hflag
    rw [if_neg Bool.false_ne_true]
    simp only [List.any_eq_true]
    constructor
    · exact fun hk => Or.inl hk
    · rintro (hk | ⟨hd, hor, _⟩)
      · exact hk
      · exact absurd ⟨hd, hor⟩ hnc

/-- Last-write-wins dict lookup distributes over table concatenation:
the right (later) table is consulted first. -/
theorem dictLookupStr_append (t₁ t₂ : List (String × String)) (k : String) :
    dictLookupStr (t₁ ++ t₂) k = (dictLookupStr t₂ k).or (dictLookupStr t₁ k) := by
  rw [dictLookupStr, dictLookupStr, dictLookupStr, List.reverse_append,
    List.find?_append]
  rcases h : (t₂.reverse.find? fun kv => kv.1 == k) with _ | kv <;> simp [h]

/-- The category-flattening fold is concatenation of the mapping tables. -/
theorem foldl_append_tables (cats : List (String × List (String × String))) :
    ∀ acc : List (String × String),
      cats.foldl (fun acc cat => acc ++ cat.2) acc =
        acc ++ (cats.map (fun cat => cat.2)).flatten := by
  induction cats with
  | nil => intro acc; simp
  | cons c t ih => intro acc; rw [List.foldl_cons, ih]; simp

/-- If no category of a list defines a key, neither does the
concatenation of their mapping tables. -/
theorem dictLookupStr_flatten_none (k : String)
    (cats : List (String × List (String × String)))
    (h : ∀ cat ∈ cats, dictLookupStr cat.2 k = none) :
    dictLookupStr ((cats.map (fun cat => cat.2)).flatten) k = none := by
  induction cats with
  | nil => rfl
  | cons c t ih =>
    rw [List.map_cons, List.flatten_cons, dictLookupStr_append]
    rw [ih (fun cat hc => h cat (List.mem_cons_of_mem c hc)),
      h c (List.mem_cons_self c t)]
    rfl

/-! ### The claims -/

/-- C1: every role-holder processed by one reconciliation pass of
`sync_role_to_outline_group` lands in exactly one of the three outcome
buckets (synced, already-member, failed): the bucket sizes sum to the
number of role-holders, bucket membership is exactly membership in the
processed list, and no member value appears in two buckets. -/
theorem claim_C1_bucket_partition (dryRun : Bool) (members : List DiscordMember)
    (users : List OutlineUser) (groupId : String)
    (addResp : String → String → Option AddResponse) :
    ((syncRolePass dryRun members users groupId addResp).1.synced.length +
      (syncRolePass dryRun members users groupId addResp).1.existing.length +
      (syncRolePass dryRun members users groupId addResp).1.failed.length =
        members.length) ∧
    (∀ m : DiscordMember,
      (m ∈ (syncRolePass dryRun members users groupId addResp).1.synced ∨
       m ∈ (syncRolePass dryRun members users groupId addResp).1.existing ∨
       m ∈ (syncRolePass dryRun members users groupId addResp).1.failed) ↔
        m ∈ members) ∧
    (∀ m : DiscordMember,
      ¬(m ∈ (syncRolePass dryRun members users groupId addResp).1.synced ∧
        m ∈ (syncRolePass dryRun members users groupId addResp).1.existing) ∧
      ¬(m ∈ (syncRolePass dryRun members users groupId addResp).1.synced ∧
        m ∈ (syncRolePass dryRun members users groupId addResp).1.failed) ∧
      ¬(m ∈ (syncRolePass dryRun members users groupId addResp).1.existing ∧
        m ∈ (syncRolePass dryRun members users groupId addResp).1.failed)) := by
  rw [syncRolePass_eq]
  refine ⟨filter_three_length _ members, ?_, ?_⟩
  · intro m
    simp only [List.mem_filter]
    constructor
    · rintro (⟨hm, _⟩ | ⟨hm, _⟩ | ⟨hm, _⟩) <;> exact hm
    · intro hm
      rcases hc : classifyMember dryRun users groupId addResp m with _ | _ | _
      · exact Or.inl ⟨hm, by simp [hc]⟩
      · exact Or.inr (Or.inl ⟨hm, by simp [hc]⟩)
      · exact Or.inr (Or.inr ⟨hm, by simp [hc]⟩)
  · intro m
    simp only [List.mem_filter]
    refine ⟨?_, ?_, ?_⟩ <;> rintro ⟨⟨_, h1⟩, ⟨_, h2⟩⟩ <;>
      simp only [beq_iff_eq] at h1 h2 <;> rw [h1] at h2 <;> exact Bucket.noConfusion h2

/-- C9: when the backing `role_mapping.json` is missing or holds
malformed JSON, `load_role_mappings` returns the empty mapping set and
reports the condition; the function is total over file states (both
exception paths are caught), so nothing propagates to the caller. -/
theorem claim_C9_load_tolerates_bad_config (fs : FileState)
    (h : fs = FileState.missing ∨ ∃ raw, fs = FileState.malformed raw) :
    (load_role_mappings fs).1 = [] ∧ (load_role_mappings fs).2 ≠ [] := by
  rcases h with rfl | ⟨raw, rfl⟩ <;> exact ⟨rfl, by simp [load_role_mappings]⟩

/-- Witness for C9 at the concrete missing-file state. -/
theorem claim_C9_witness :
    (load_role_mappings FileState.missing).1 = [] ∧
    (load_role_mappings FileState.missing).2 ≠ [] :=
  claim_C9_load_tolerates_bad_config FileState.missing (Or.inl rfl)

/-- C10: a chat member with an empty display name skips the three
display-name strategies entirely — the cascade collapses to the
handle-based strategies 4–6 — and any match it produces is tagged with a
handle-based strategy. -/
theorem claim_C10_empty_display_handle_only (handle : String)
    (users : List OutlineUser) :
    (find_matching_outline_user handle "" users =
      (match strat4 handle users with
       | some u => some (u, Strategy.handleExact)
       | none =>
       match strat5 handle users with
       | some u => some (u, Strategy.handlePartial)
       | none =>
       match strat6 handle users with
       | some u => some (u, Strategy.emailHandle)
       | none => none)) ∧
    (∀ u s, find_matching_outline_user handle "" users = some (u, s) →
      s = Strategy.handleExact ∨ s = Strategy.handlePartial ∨
        s = Strategy.emailHandle) := by
  have h1 : strat1 "" users = none := by rw [strat1, if_pos rfl]
  have h2 : strat2 "" users = none := by rw [strat2, if_pos rfl]
  have h3 : strat3 "" users = none := by rw [strat3, if_pos rfl]
  have heq : find_matching_outline_user handle "" users =
      (match strat4 handle users with
       | some u => some (u, Strategy.handleExact)
       | none =>
       match strat5 handle users with
       | some u => some (u, Strategy.handlePartial)
       | none =>
       match strat6 handle users with
       | some u => some (u, Strategy.emailHandle)
       | none => none) := by
    rw [find_matching_outline_user, h1, h2, h3]
  refine ⟨heq, ?_⟩
  intro u s hs
  rw [heq] at hs
  rcases h4 : strat4 handle users with _ | u4 <;> rw [h4] at hs
  case some => simp at hs; exact Or.inl hs.2.symm
  rcases h5 : strat5 handle users with _ | u5 <;> rw [h5] at hs
  case some => simp at hs; exact Or.inr (Or.inl hs.2.symm)
  rcases h6 : strat6 handle users with _ | u6 <;> rw [h6] at hs
  case some => simp at hs; exact Or.inr (Or.inr hs.2.symm)
  simp at hs

/-- Witness for C10: a member with empty display name and handle `bob`
matches the candidate named `Bob` through the handle strategy. -/
theorem claim_C10_witness :
    Strategy.handleExact = Strategy.handleExact ∨
    Strategy.handleExact = Strategy.handlePartial ∨
    Strategy.handleExact = Strategy.emailHandle :=
  (claim_C10_empty_display_handle_only "bob"
      [⟨"u0", "Bob", "", []⟩]).2 ⟨"u0", "Bob", "", []⟩
    Strategy.handleExact (by rfl)

/-- C2 counterexample: a member whose (empty) display name equals a
candidate's (empty) name case-insensitively, yet the cascade returns no
match at all — strategy 1 is guarded by truthiness of the display name
(and of the candidate name), so the claim as stated fails on this
input. -/
theorem claim_C2_counterexample :
    pyLower (OutlineUser.mk "u1" "" "" []).name = pyLower "" ∧
    (OutlineUser.mk "u1" "" "" []) ∈ [OutlineUser.mk "u1" "" "" []] ∧
    find_matching_outline_user "zz" "" [OutlineUser.mk "u1" "" "" []] = none := by
  refine ⟨rfl, List.mem_singleton.mpr rfl, rfl⟩

/-- C2 (amended): for a member with a nonempty display name that equals
some candidate's name case-insensitively, the cascade returns the first
such candidate in list order, tagged as a strategy-1 (exact display-name)
match, whatever the handle is — so no later strategy is consulted even if
another candidate would match on handle, and ties are broken by list
order. -/
theorem claim_C2_display_exact_priority (handle display : String)
    (users : List OutlineUser) (hd : display ≠ "")
    (hex : ∃ u ∈ users, pyLower u.name = pyLower display) :
    ∃ k, ∃ hk : k < users.length,
      find_matching_outline_user handle display users =
        some (users.get ⟨k, hk⟩, Strategy.displayExact) ∧
      pyLower (users.get ⟨k, hk⟩).name = pyLower display ∧
      ∀ j, ∀ hj : j < users.length, j < k →
        pyLower (users.get ⟨j, hj⟩).name ≠ pyLower display := by
  have hname : ∀ u : OutlineUser, pyLower u.name = pyLower display → u.name ≠ "" := by
    intro u he hu
    rw [hu] at he
    have hdisp : pyLower display = "" := he.symm
    exact hd (eq_empty_of_pyLower_eq_empty hdisp)
  have hxp : ∃ u ∈ users,
      ((u.name != "") && (pyLower u.name == pyLower display)) = true := by
    rcases hex with ⟨u, hu, he⟩
    exact ⟨u, hu, by simp [hname u he, he]⟩
  rcases find?_eq_some_first _ users hxp with ⟨k, hk, hfind, hpk, hfirst⟩
  have hs1 : strat1 display users = some (users.get ⟨k, hk⟩) := by
    rw [strat1, if_neg hd, hfind]
  refine ⟨k, hk, ?_, ?_, ?_⟩
  · rw [find_matching_outline_user, hs1]
  · simpa using (Bool.and_eq_true _ _ |>.mp hpk).2
  · intro j hj hjk heq
    have hp : (((users.get ⟨j, hj⟩).name != "") &&
        (pyLower (users.get ⟨j, hj⟩).name == pyLower display)) = true := by
      rw [Bool.and_eq_true]
      exact ⟨bne_iff_ne.mpr (hname _ heq), beq_iff_eq.mpr heq⟩
    rw [hfirst j hj hjk] at hp
    exact Bool.false_ne_true hp

/-- Witness for C2: the candidate `jane doe` is selected by strategy 1
(first and only display-name match, at index 1) even though candidate
`bob` at index 0 matches the handle exactly. -/
theorem claim_C2_witness :
    ∃ k, ∃ hk : k <
      ([⟨"u0", "bob", "", []⟩, ⟨"u1", "jane doe", "", []⟩] :
        List OutlineUser).length,
      find_matching_outline_user "bob" "Jane Doe"
          [⟨"u0", "bob", "", []⟩, ⟨"u1", "jane doe", "", []⟩] =
        some ((([⟨"u0", "bob", "", []⟩, ⟨"u1", "jane doe", "", []⟩] :
          List OutlineUser).get ⟨k, hk⟩), Strategy.displayExact) ∧
      pyLower (([⟨"u0", "bob", "", []⟩, ⟨"u1", "jane doe", "", []⟩] :
          List OutlineUser).get ⟨k, hk⟩).name = pyLower "Jane Doe" ∧
      ∀ j, ∀ hj : j < ([⟨"u0", "bob", "", []⟩, ⟨"u1", "jane doe", "", []⟩] :
          List OutlineUser).length, j < k →
        pyLower (([⟨"u0", "bob", "", []⟩, ⟨"u1", "jane doe", "", []⟩] :
          List OutlineUser).get ⟨j, hj⟩).name ≠ pyLower "Jane Doe" :=
  claim_C2_display_exact_priority "bob" "Jane Doe"
    [⟨"u0", "bob", "", []⟩, ⟨"u1", "jane doe", "", []⟩]
    (by decide) ⟨⟨"u1", "jane doe", "", []⟩, by simp, by rfl⟩

/-- C3 counterexample: a truthy add-to-group response carrying a
structured `success: False` but no keyword anywhere is classified as
synced, not already-member — so a structured `success:false`/`error`
field alone does not trigger the already-member case. -/
theorem claim_C3_counterexample :
    (AddResponse.mk "\x7b'success': False\x7d" true true false "").successFalse
        = true ∧
    is_existing_response
        (AddResponse.mk "\x7b'success': False\x7d" true true false "") = false ∧
    classifyMember false [OutlineUser.mk "u1" "Jane Doe" "" []] "g1"
        (fun _ _ =>
          some (AddResponse.mk "\x7b'success': False\x7d" true true false ""))
        (DiscordMember.mk "jdoe" "Jane Doe") = Bucket.synced := by
  refine ⟨rfl, by decide, by decide⟩

/-- C3 (amended): for every non-dry-run add call on a matched member that
returns a truthy response, the member is classified already-member iff a
keyword of the `existing_keywords` list occurs in the lowercased response
text, or the response is a dict with `success == False` or an `error`
field AND a keyword occurs in the lowercased error message; otherwise the
member is classified synced (a structured failure field alone is not
enough). -/
theorem claim_C3_live_response_classification (users : List OutlineUser)
    (groupId : String) (addResp : String → String → Option AddResponse)
    (m : DiscordMember) (u : OutlineUser) (s : Strategy) (r : AddResponse)
    (hmatch : find_matching_outline_user m.name m.display_name users = some (u, s))
    (hresp : addResp u.id groupId = some r) :
    (classifyMember false users groupId addResp m = Bucket.existing ↔
      ((∃ k ∈ existing_keywords, pyIn k (pyLower r.text) = true) ∨
        (r.isDict = true ∧ (r.successFalse = true ∨ r.hasError = true) ∧
          ∃ k ∈ existing_keywords, pyIn k (pyLower r.errorMessage) = true))) ∧
    (classifyMember false users groupId addResp m = Bucket.synced ↔
      ¬((∃ k ∈ existing_keywords, pyIn k (pyLower r.text) = true) ∨
        (r.isDict = true ∧ (r.successFalse = true ∨ r.hasError = true) ∧
          ∃ k ∈ existing_keywords, pyIn k (pyLower r.errorMessage) = true))) := by
  rw [classifyMember, hmatch]
  simp only [Bool.false_eq_true, if_false, hresp]
  rw [← is_existing_iff r]
  cases he : is_existing_response r with
  | true => simp
  | false => simp

/-- Witness for C3: a response whose text says `user is already a member`
is classified already-member for the strategy-1 matched member. -/
theorem claim_C3_witness :
    (classifyMember false [OutlineUser.mk "u1" "Jane Doe" "" []] "g1"
        (fun _ _ =>
          some (AddResponse.mk "user is already a member" false false false ""))
        (DiscordMember.mk "jdoe" "Jane Doe") = Bucket.existing ↔
      ((∃ k ∈ existing_keywords,
          pyIn k (pyLower (AddResponse.mk
            "user is already a member" false false false "").text) = true) ∨
        ((AddResponse.mk "user is already a member" false false false "").isDict
            = true ∧
          ((AddResponse.mk "user is already a member" false false false "").successFalse
              = true ∨
            (AddResponse.mk "user is already a member" false false false "").hasError
              = true) ∧
          ∃ k ∈ existing_keywords,
            pyIn k (pyLower (AddResponse.mk
              "user is already a member" false false false "").errorMessage)
              = true))) ∧
    (classifyMember false [OutlineUser.mk "u1" "Jane Doe" "" []] "g1"
        (fun _ _ =>
          some (AddResponse.mk "user is already a member" false false false ""))
        (DiscordMember.mk "jdoe" "Jane Doe") = Bucket.synced ↔
      ¬((∃ k ∈ existing_keywords,
          pyIn k (pyLower (AddResponse.mk
            "user is already a member" false false false "").text) = true) ∨
        ((AddResponse.mk "user is already a member" false false false "").isDict
            = true ∧
          ((AddResponse.mk "user is already a member" false false false "").successFalse
              = true ∨
            (AddResponse.mk "user is already a member" false false false "").hasError
              = true) ∧
          ∃ k ∈ existing_keywords,
            pyIn k (pyLower (AddResponse.mk
              "user is already a member" false false false "").errorMessage)
              = true))) :=
  claim_C3_live_response_classification
    [OutlineUser.mk "u1" "Jane Doe" "" []] "g1"
    (fun _ _ =>
      some (AddResponse.mk "user is already a member" false false false ""))
    (DiscordMember.mk "jdoe" "Jane Doe")
    (OutlineUser.mk "u1" "Jane Doe" "" []) Strategy.displayExact
    (AddResponse.mk "user is already a member" false false false "")
    (by decide) (by rfl)

/-- Flattening a map whose function always yields the empty list yields
the empty list. -/
theorem flatten_map_eq_nil {α β : Type} (l : List α) (f : α → List β)
    (h : ∀ x, f x = []) : (l.map f).flatten = [] := by
  induction l with
  | nil => rfl
  | cons a t ih => rw [List.map_cons, List.flatten_cons, h a, ih]; rfl

/-- C4: with `dryRun = true` a mapping is processed without a single
mutating call — no `create_group`, no `add_user_to_group`; an absent
group resolves to the placeholder id `mock-id-for-dry-run`; and each
matched member is classified purely from the candidate's recorded group
memberships. -/
theorem claim_C4_dry_run_no_mutations (groups : List OutlineGroup)
    (roleName groupName : String) (createResp : CreateResponse)
    (members : List DiscordMember) (users : List OutlineUser)
    (groupId : String) (addResp : String → String → Option AddResponse) :
    (processMapping groups roleName groupName true createResp
        members users addResp).2 = [] ∧
    (dictLookupGroup groups groupName = none →
      resolveGroup groups groupName roleName true createResp =
        ResolveResult.ok "mock-id-for-dry-run" []) ∧
    (∀ m u s,
      find_matching_outline_user m.name m.display_name users = some (u, s) →
      classifyMember true users groupId addResp m =
        if u.memberships.contains groupId then Bucket.existing
        else Bucket.synced) := by
  have hmc : ∀ gid m, memberCalls true users gid m = [] := fun _ _ => rfl
  have hpass : ∀ gid, (syncRolePass true members users gid addResp).2 = [] := by
    intro gid
    rw [syncRolePass_eq]
    exact flatten_map_eq_nil members _ (hmc gid)
  refine ⟨?_, ?_, ?_⟩
  · rcases hg : dictLookupGroup groups groupName with _ | g <;>
      simp [processMapping, resolveGroup, hg, hpass]
  · intro hg
    simp [resolveGroup, hg]
  · intro m u s hm
    simp [classifyMember, hm]

/-- Witness for C4 on a concrete snapshot: empty trace, placeholder
group, membership-based classification of the strategy-1 match. -/
theorem claim_C4_witness :
    (processMapping [] "Active" "Members" true CreateResponse.failed
        [DiscordMember.mk "jdoe" "Jane Doe"]
        [OutlineUser.mk "u1" "Jane Doe" "" ["g1"]]
        (fun _ _ => none)).2 = [] ∧
    resolveGroup [] "Members" "Active" true CreateResponse.failed =
      ResolveResult.ok "mock-id-for-dry-run" [] ∧
    classifyMember true [OutlineUser.mk "u1" "Jane Doe" "" ["g1"]] "g1"
        (fun _ _ => none) (DiscordMember.mk "jdoe" "Jane Doe") =
      (if (OutlineUser.mk "u1" "Jane Doe" "" ["g1"]).memberships.contains "g1"
        then Bucket.existing else Bucket.synced) := by
  obtain ⟨h1, h2, h3⟩ := claim_C4_dry_run_no_mutations [] "Active" "Members"
    CreateResponse.failed [DiscordMember.mk "jdoe" "Jane Doe"]
    [OutlineUser.mk "u1" "Jane Doe" "" ["g1"]] "g1" (fun _ _ => none)
  exact ⟨h1, h2 rfl, h3 (DiscordMember.mk "jdoe" "Jane Doe")
    (OutlineUser.mk "u1" "Jane Doe" "" ["g1"]) Strategy.displayExact (by decide)⟩

/-- C5 counterexample: one fixed upstream snapshot (the candidate is
already a member of the target group, but the recorded add-to-group
response is a bland truthy acknowledgement) in which the dry run
classifies the member already-member while the live run classifies the
same member synced — the claimed bucket equivalence fails as stated. -/
theorem claim_C5_counterexample :
    classifyMember true [OutlineUser.mk "u1" "Jane Doe" "" ["g1"]] "g1"
        (fun _ _ => some (AddResponse.mk "\x7b'ok': True\x7d" true false false ""))
        (DiscordMember.mk "jdoe" "Jane Doe") = Bucket.existing ∧
    classifyMember false [OutlineUser.mk "u1" "Jane Doe" "" ["g1"]] "g1"
        (fun _ _ => some (AddResponse.mk "\x7b'ok': True\x7d" true false false ""))
        (DiscordMember.mk "jdoe" "Jane Doe") = Bucket.synced := by
  exact ⟨by decide, by decide⟩

/-- C5 (amended): when the recorded add-to-group responses are consistent
with the recorded memberships — every candidate's response is truthy and
its already-member classification agrees with whether the candidate is in
the target group — a dry run and a live run over the same snapshot build
identical outcome buckets (dry would-sync lands synced live, already-member
stays already-member, non-matches fail in both). -/
theorem claim_C5_dry_live_equivalence (members : List DiscordMember)
    (users : List OutlineUser) (groupId : String)
    (addResp : String → String → Option AddResponse)
    (H : ∀ u ∈ users, ∃ r, addResp u.id groupId = some r ∧
      is_existing_response r = u.memberships.contains groupId) :
    (syncRolePass true members users groupId addResp).1 =
      (syncRolePass false members users groupId addResp).1 := by
  have hcl : ∀ m, classifyMember true users groupId addResp m =
      classifyMember false users groupId addResp m := by
    intro m
    rcases hm : find_matching_outline_user m.name m.display_name users
      with _ | ⟨u, s⟩
    · simp [classifyMember, hm]
    · rcases H u (find_matching_mem hm) with ⟨r, hr, hiff⟩
      simp [classifyMember, hm, hr, hiff]
  have e1 : members.filter
        (fun m => classifyMember true users groupId addResp m == Bucket.synced) =
      members.filter
        (fun m => classifyMember false users groupId addResp m == Bucket.synced) :=
    List.filter_congr (fun m _ => by rw [hcl m])
  have e2 : members.filter
        (fun m => classifyMember true users groupId addResp m == Bucket.existing) =
      members.filter
        (fun m => classifyMember false users groupId addResp m == Bucket.existing) :=
    List.filter_congr (fun m _ => by rw [hcl m])
  have e3 : members.filter
        (fun m => classifyMember true users groupId addResp m == Bucket.failed) =
      members.filter
        (fun m => classifyMember false users groupId addResp m == Bucket.failed) :=
    List.filter_congr (fun m _ => by rw [hcl m])
  rw [syncRolePass_eq, syncRolePass_eq]
  simp only
  rw [e1, e2, e3]

/-- Witness for C5 on a concrete consistent snapshot: one member already
in the group (response text mentions membership), one member matched but
not yet in the group (bland truthy response), one unmatched member. -/
theorem claim_C5_witness :
    (syncRolePass true
        [DiscordMember.mk "jdoe" "Jane Doe", DiscordMember.mk "zz" "Qqqq"]
        [OutlineUser.mk "u1" "Jane Doe" "" ["g1"],
         OutlineUser.mk "u2" "Bbbb Cccc" "" []] "g1"
        (fun uid _ =>
          if uid = "u1" then
            some (AddResponse.mk "user is already a member" false false false "")
          else some (AddResponse.mk "\x7b'ok': True\x7d" true false false ""))).1 =
      (syncRolePass false
        [DiscordMember.mk "jdoe" "Jane Doe", DiscordMember.mk "zz" "Qqqq"]
        [OutlineUser.mk "u1" "Jane Doe" "" ["g1"],
         OutlineUser.mk "u2" "Bbbb Cccc" "" []] "g1"
        (fun uid _ =>
          if uid = "u1" then
            some (AddResponse.mk "user is already a member" false false false "")
          else some (AddResponse.mk "\x7b'ok': True\x7d" true false false ""))).1 :=
  claim_C5_dry_live_equivalence
    [DiscordMember.mk "jdoe" "Jane Doe", DiscordMember.mk "zz" "Qqqq"]
    [OutlineUser.mk "u1" "Jane Doe" "" ["g1"],
     OutlineUser.mk "u2" "Bbbb Cccc" "" []] "g1"
    (fun uid _ =>
      if uid = "u1" then
        some (AddResponse.mk "user is already a member" false false false "")
      else some (AddResponse.mk "\x7b'ok': True\x7d" true false false ""))
    (by decide)

/-- Witness for C1 on a concrete pass: one synced member and one
unmatched member, bucket sizes summing to two. -/
theorem claim_C1_witness :
    (syncRolePass false
        [DiscordMember.mk "jdoe" "Jane Doe", DiscordMember.mk "zz" "Qqqq"]
        [OutlineUser.mk "u1" "Jane Doe" "" []] "g1"
        (fun _ _ => some (AddResponse.mk "ok" false false false ""))).1.synced.length +
      (syncRolePass false
        [DiscordMember.mk "jdoe" "Jane Doe", DiscordMember.mk "zz" "Qqqq"]
        [OutlineUser.mk "u1" "Jane Doe" "" []] "g1"
        (fun _ _ => some (AddResponse.mk "ok" false false false ""))).1.existing.length +
      (syncRolePass false
        [DiscordMember.mk "jdoe" "Jane Doe", DiscordMember.mk "zz" "Qqqq"]
        [OutlineUser.mk "u1" "Jane Doe" "" []] "g1"
        (fun _ _ => some (AddResponse.mk "ok" false false false ""))).1.failed.length = 2 :=
  (claim_C1_bucket_partition false
    [DiscordMember.mk "jdoe" "Jane Doe", DiscordMember.mk "zz" "Qqqq"]
    [OutlineUser.mk "u1" "Jane Doe" "" []] "g1"
    (fun _ _ => some (AddResponse.mk "ok" false false false ""))).1

/-- C6 counterexample: the directory holds a group named `Members`, the
mapping targets `members` (same name up to case), yet the auto-sync
lookup treats the group as absent and a live run issues a create-group
call — the lookup is not case-insensitive. -/
theorem claim_C6_counterexample :
    pyLower (OutlineGroup.mk "g1" "Members").name = pyLower "members" ∧
    dictLookupGroup [OutlineGroup.mk "g1" "Members"] "members" = none ∧
    resolveGroup [OutlineGroup.mk "g1" "Members"] "members" "Active" false
        (CreateResponse.ok (OutlineGroup.mk "g2" "members")) =
      ResolveResult.ok "g2"
        [MutCall.createGroup "members" "Auto-synced from Discord role: Active"] := by
  exact ⟨rfl, rfl, rfl⟩

/-- C6 (amended): the auto-sync command's group lookup is exact
(case-sensitive): a hit always carries exactly the looked-up name, a
directory whose group names all differ from the target (even only by
case) yields no hit, and a live run then issues a create-group call for
the case-variant name. Only the separate manual sync path of src/bot.py
(`_sync_role_to_group`) looks groups up case-insensitively — and it
never creates groups. -/
theorem claim_C6_group_lookup_case_semantics (groups : List OutlineGroup)
    (n : String) :
    (∀ g, dictLookupGroup groups n = some g → g.name = n) ∧
    ((∀ g ∈ groups, g.name ≠ n) → dictLookupGroup groups n = none) ∧
    (∀ roleName createResp, (∀ g ∈ groups, g.name ≠ n) →
      (resolveGroup groups n roleName false createResp).calls =
        [MutCall.createGroup n ("Auto-synced from Discord role: " ++ roleName)]) ∧
    (∀ g ∈ groups, pyLower g.name = pyLower n →
      ∃ g2, botGroupLookup groups n = some g2 ∧ pyLower g2.name = pyLower n) := by
  have hnone : (∀ g ∈ groups, g.name ≠ n) → dictLookupGroup groups n = none := by
    intro h
    rw [dictLookupGroup, List.find?_eq_none]
    intro x hx
    simpa using h x (List.mem_reverse.mp hx)
  refine ⟨?_, hnone, ?_, ?_⟩
  · intro g hg
    rw [dictLookupGroup] at hg
    have hp := List.find?_some hg
    simp only [beq_iff_eq] at hp
    exact hp
  · intro roleName createResp h
    rcases createResp <;>
      simp [resolveGroup, hnone h, ResolveResult.calls]
  · intro g hg he
    have hsome : (groups.reverse.find?
        fun g => pyLower g.name == pyLower n).isSome := by
      rw [List.find?_isSome]
      exact ⟨g, List.mem_reverse.mpr hg, beq_iff_eq.mpr he⟩
    rcases Option.isSome_iff_exists.mp hsome with ⟨g2, hg2⟩
    have hp := List.find?_some hg2
    simp only [beq_iff_eq] at hp
    exact ⟨g2, hg2, hp⟩

/-- Witness for C6: with only the group `Members` present, looking up
`members` in the auto-sync command issues a create call live, while the
bot.py map resolves it. -/
theorem claim_C6_witness :
    ((resolveGroup [OutlineGroup.mk "g1" "Members"] "members" "Active" false
        CreateResponse.failed).calls =
      [MutCall.createGroup "members" "Auto-synced from Discord role: Active"]) ∧
    ∃ g2, botGroupLookup [OutlineGroup.mk "g1" "Members"] "members" = some g2 ∧
      pyLower g2.name = pyLower "members" := by
  obtain ⟨_, _, h3, h4⟩ := claim_C6_group_lookup_case_semantics
    [OutlineGroup.mk "g1" "Members"] "members"
  exact ⟨h3 "Active" CreateResponse.failed (by decide),
    h4 (OutlineGroup.mk "g1" "Members") (by simp) (by rfl)⟩

/-- C7 counterexample: a live creation for role `Active` uses the
description `Auto-synced from Discord role: Active`, which differs from
the claim's exact string `Auto-synced from role: Active`. -/
theorem claim_C7_counterexample :
    resolveGroup [] "Members" "Active" false
        (CreateResponse.ok (OutlineGroup.mk "g1" "Members")) =
      ResolveResult.ok "g1"
        [MutCall.createGroup "Members" "Auto-synced from Discord role: Active"] ∧
    "Auto-synced from Discord role: Active" ≠ "Auto-synced from role: Active" := by
  exact ⟨rfl, by decide⟩

/-- C7 (amended): for a mapping whose target group is absent in a
non-dry run, a create-group call with description
`"Auto-synced from Discord role: {roleName}"` is issued, and when the
creation response is falsy/invalid the whole mapping is reported as an
error (`none` outcome) with no member sync attempted (the trace holds
only the create call). -/
theorem claim_C7_create_absent_group (groups : List OutlineGroup)
    (roleName groupName : String) (createResp : CreateResponse)
    (members : List DiscordMember) (users : List OutlineUser)
    (addResp : String → String → Option AddResponse)
    (habs : dictLookupGroup groups groupName = none) :
    ((resolveGroup groups groupName roleName false createResp).calls =
      [MutCall.createGroup groupName
        ("Auto-synced from Discord role: " ++ roleName)]) ∧
    ((createResp = CreateResponse.failed ∨
        createResp = CreateResponse.invalidData) →
      processMapping groups roleName groupName false createResp
          members users addResp =
        (none, [MutCall.createGroup groupName
          ("Auto-synced from Discord role: " ++ roleName)])) := by
  constructor
  · rcases createResp <;> simp [resolveGroup, habs, ResolveResult.calls]
  · rintro (rfl | rfl) <;> simp [processMapping, resolveGroup, habs]

/-- Witness for C7: failing creation of the absent group `Members` for
role `Active` reports the mapping and issues only the create call. -/
theorem claim_C7_witness :
    ((resolveGroup [] "Members" "Active" false CreateResponse.failed).calls =
      [MutCall.createGroup "Members" "Auto-synced from Discord role: Active"]) ∧
    processMapping [] "Active" "Members" false CreateResponse.failed
        [DiscordMember.mk "jdoe" "Jane Doe"] [] (fun _ _ => none) =
      (none, [MutCall.createGroup "Members"
        "Auto-synced from Discord role: Active"]) := by
  obtain ⟨h1, h2⟩ := claim_C7_create_absent_group [] "Active" "Members"
    CreateResponse.failed [DiscordMember.mk "jdoe" "Jane Doe"] []
    (fun _ _ => none) rfl
  exact ⟨h1, h2 (Or.inl rfl)⟩

/-- C8: flattening all categories into one role-to-group table is
last-write-wins: when a category `c2` defines a role and no later
category defines it again, the flattened lookup returns `c2`'s group
name, whatever earlier categories (such as `c1`) said — deterministically
in the given iteration order. -/
theorem claim_C8_last_category_wins
    (pre mid post : List (String × List (String × String)))
    (c1 c2 : String × List (String × String)) (r g1 g2 : String)
    (h1 : dictLookupStr c1.2 r = some g1)
    (h2 : dictLookupStr c2.2 r = some g2)
    (hpost : ∀ cat ∈ post, dictLookupStr cat.2 r = none) :
    allMappingsLookup (pre ++ c1 :: (mid ++ c2 :: post)) r = some g2 := by
  rw [allMappingsLookup, foldl_append_tables]
  rw [List.nil_append, List.map_append, List.map_cons, List.map_append,
    List.map_cons, List.flatten_append, List.flatten_cons,
    List.flatten_append, List.flatten_cons]
  rw [dictLookupStr_append, dictLookupStr_append, dictLookupStr_append,
    dictLookupStr_append, dictLookupStr_flatten_none r post hpost, h2]
  rfl

/-- Witness for C8: two categories both mapping role `Active`; the
flattened table returns the second category's group name. -/
theorem claim_C8_witness :
    allMappingsLookup
      [("engineering", [("Active", "Eng Members")]),
       ("operations", [("Active", "Ops Members")])] "Active" =
      some "Ops Members" :=
  claim_C8_last_category_wins [] [] []
    ("engineering", [("Active", "Eng Members")])
    ("operations", [("Active", "Ops Members")])
    "Active" "Eng Members" "Ops Members" rfl rfl (by simp)

end StatusBot
